import Mathlib

/-!
Verification development for the `dht_influxdb` repository (`rtl.py`).

The Python source is shallowly embedded: JSON values are an inductive type,
Python dictionaries are association lists, machine floats arising from
`float(raw)/100.0` on decoder integers/decimal strings are modelled as `Rat`,
the dewpoint math is modelled over `ℝ`, and the unbounded `while` loop of
`get_rtl_values` is modelled with explicit fuel (`none` = the loop has not
returned within the given number of iterations; since every iteration consumes
one unit of fuel, `∀ fuel, ... = none` states non-termination).
Python exceptions are modelled with `Except PyErr`; an exception that the
source catches is handled where the corresponding `try/except` sits, and any
other exception propagates.
-/

namespace DhtInflux

/-- Python exception kinds relevant to `rtl.py`. `nameError` stands for the
`UnboundLocalError`/`NameError` raised when reading a local variable that was
never assigned. -/
inductive PyErr where
  | keyError
  | valueError
  | typeError
  | indexError
  | nameError
deriving DecidableEq, Repr

/-- JSON values as produced by `json.loads` on decoder output lines.
Decoder messages carry integer numbers, so numbers are modelled as `Int`. -/
inductive JVal where
  | jnull
  | jbool (b : Bool)
  | jnum (n : Int)
  | jstr (s : String)
  | jobj (fields : List (String × JVal))

/-- Drop leading JSON/Python whitespace. -/
def skipWs : List Char → List Char
  | [] => []
  | ch :: rest =>
    if ch = ' ' ∨ ch = '\n' ∨ ch = '\t' ∨ ch = '\r' then skipWs rest
    else ch :: rest

/-- Read the body of a double-quoted string (no escape sequences occur in
decoder output): returns the characters before the closing quote and the
remaining input after it. -/
def parseStrChars : List Char → Option (List Char × List Char)
  | [] => none
  | ch :: rest =>
    if ch = '"' then some ([], rest)
    else
      match parseStrChars rest with
      | some (s, r) => some (ch :: s, r)
      | none => none

/-- Split off a maximal run of decimal digits. -/
def takeDigits : List Char → List Char × List Char
  | [] => ([], [])
  | ch :: rest =>
    if ch.isDigit then
      let (ds, r) := takeDigits rest
      (ch :: ds, r)
    else ([], ch :: rest)

/-- Value of a digit run. -/
def digitsToNat (ds : List Char) : Nat :=
  ds.foldl (fun a ch => a * 10 + (ch.toNat - 48)) 0

/-- Check that `lit` is a prefix of the input and drop it. -/
def expectChars : List Char → List Char → Option (List Char)
  | [], input => some input
  | ch :: lit, input =>
    match input with
    | [] => none
    | c2 :: rest => if c2 = ch then expectChars lit rest else none

/-- Parser mode: a whole JSON value, or the member list of an object whose
opening brace (and possibly some members, kept in `acc`) was consumed. -/
inductive PMode where
  | value
  | members (acc : List (String × JVal))

/-- Models `json.loads` on the JSON subset emitted by the decoders
(objects with string keys, strings, integers, booleans, `null`).
Fuel-indexed so that the recursion is structural; one unit of fuel is spent
per syntactic level, and each level consumes at least one character, so
`input.length + 1` fuel always suffices. -/
def parseCore : Nat → PMode → List Char → Option (JVal × List Char)
  | 0, _, _ => none
  | fuel + 1, PMode.value, input =>
    match skipWs input with
    | [] => none
    | ch :: rest =>
      if ch = '"' then
        match parseStrChars rest with
        | some (s, r) => some (JVal.jstr (String.mk s), r)
        | none => none
      else if ch = '\x7b' then
        match skipWs rest with
        | '\x7d' :: r2 => some (JVal.jobj [], r2)
        | r2 => parseCore fuel (PMode.members []) r2
      else if ch = 't' then
        match expectChars ['r', 'u', 'e'] rest with
        | some r => some (JVal.jbool true, r)
        | none => none
      else if ch = 'f' then
        match expectChars ['a', 'l', 's', 'e'] rest with
        | some r => some (JVal.jbool false, r)
        | none => none
      else if ch = 'n' then
        match expectChars ['u', 'l', 'l'] rest with
        | some r => some (JVal.jnull, r)
        | none => none
      else if ch = '-' then
        let (ds, r) := takeDigits rest
        if ds.isEmpty then none
        else some (JVal.jnum (-(digitsToNat ds : Int)), r)
      else if ch.isDigit then
        let (ds, r) := takeDigits (ch :: rest)
        some (JVal.jnum (digitsToNat ds : Int), r)
      else none
  | fuel + 1, PMode.members acc, input =>
    match skipWs input with
    | '"' :: rest =>
      match parseStrChars rest with
      | some (k, r1) =>
        match skipWs r1 with
        | ':' :: r2 =>
          match parseCore fuel PMode.value r2 with
          | some (v, r3) =>
            match skipWs r3 with
            | ',' :: r4 => parseCore fuel (PMode.members (acc ++ [(String.mk k, v)])) r4
            | '\x7d' :: r4 => some (JVal.jobj (acc ++ [(String.mk k, v)]), r4)
            | _ => none
          | none => none
        | _ => none
      | none => none
    | _ => none

/-- Models `json.loads(line)`: parse one JSON value and require that only
whitespace follows; `none` models a raised `ValueError`
(`json.JSONDecodeError`). -/
def jsonParse (s : String) : Option JVal :=
  match parseCore (s.length + 1) PMode.value s.toList with
  | some (v, rest) => if (skipWs rest).isEmpty then some v else none
  | none => none

/-- Models Python `float()` applied to a string: optional surrounding
whitespace, optional sign, decimal digits with an optional fractional part
(the subset of float literals meter consumption strings can take).
`none` models a raised `ValueError`. -/
def pyFloatString (s : String) : Option Rat :=
  let cs := skipWs s.toList
  let (neg, cs1) :=
    match cs with
    | '-' :: r => (true, r)
    | '+' :: r => (false, r)
    | _ => (false, cs)
  let (ip, cs2) := takeDigits cs1
  let core : Option Rat :=
    match cs2 with
    | '.' :: r =>
      let (fp, r2) := takeDigits r
      if ip.isEmpty ∧ fp.isEmpty then none
      else if (skipWs r2).isEmpty then
        some ((digitsToNat ip : Rat) + (digitsToNat fp : Rat) / ((10 : Rat) ^ fp.length))
      else none
    | r =>
      if ip.isEmpty then none
      else if (skipWs r).isEmpty then some (digitsToNat ip : Rat)
      else none
  match core with
  | some q => some (if neg then -q else q)
  | none => none

/-- Models Python `float()` on a JSON value: numbers convert, strings are
parsed (`ValueError` on a non-numeric string), booleans convert to 0/1,
and any other type raises `TypeError`. -/
def pyFloat : JVal → Except PyErr Rat
  | JVal.jnum n => Except.ok (n : Rat)
  | JVal.jstr s =>
    match pyFloatString s with
    | some q => Except.ok q
    | none => Except.error PyErr.valueError
  | JVal.jbool bv => Except.ok (if bv then 1 else 0)
  | _ => Except.error PyErr.typeError

/-- Models Python `str()` on the JSON values compared by the extractor
(identifier fields are strings or integers in decoder output; the other
constructors never reach a `str()` call in the modelled paths). -/
def pyStr : JVal → String
  | JVal.jstr s => s
  | JVal.jnum n => toString n
  | JVal.jbool bv => if bv then "True" else "False"
  | JVal.jnull => "None"
  | JVal.jobj _ => "dict"

/-- First binding of a key in an object's member list (decoder lines never
repeat keys). -/
def jLookup : List (String × JVal) → String → Option JVal
  | [], _ => none
  | (k, v) :: rest, key => if k = key then some v else jLookup rest key

/-- Models Python subscripting `obj[key]`: `KeyError` when the key is absent
from a dictionary, `TypeError` when the value is not subscriptable by a
string key. -/
def pyIndex (v : JVal) (key : String) : Except PyErr JVal :=
  match v with
  | JVal.jobj fs =>
    match jLookup fs key with
    | some x => Except.ok x
    | none => Except.error PyErr.keyError
  | _ => Except.error PyErr.typeError

/-- Bool-valued substring test, used to model `key in <str>`. -/
def containsSub (needle : List Char) : List Char → Bool
  | [] => needle.isEmpty
  | c2 :: rest => needle.isPrefixOf (c2 :: rest) || containsSub needle rest

/-- Models Python `key in obj`: key membership for a dictionary, substring
test for a string, `TypeError` otherwise. -/
def jContains (v : JVal) (key : String) : Except PyErr Bool :=
  match v with
  | JVal.jobj fs => Except.ok ((jLookup fs key).isSome)
  | JVal.jstr s => Except.ok (containsSub key.toList s.toList)
  | _ => Except.error PyErr.typeError

/-- Python truthiness of an optional-string configuration value
(`None` and `""` are falsy). -/
def optTruthy : Option String → Bool
  | none => false
  | some s => !s.isEmpty

/-- A Python runtime value as compared by `==` in the read loop: the loop
compares the `bytes` line from `p.stdout.readline()` against the `str`
literal `''`. In Python 3 a `bytes`/`str` comparison is always `False`. -/
inductive PyVal where
  | str (s : String)
  | bytes (s : String)

/-- Python `==` on `PyVal`: equal only within one type. -/
def pyEq : PyVal → PyVal → Bool
  | PyVal.str a, PyVal.str b2 => a == b2
  | PyVal.bytes a, PyVal.bytes b2 => a == b2
  | _, _ => false

/-- The read loop of `rtl.get_rtl_values` (src/rtl.py lines 229-241).
`stream` is the remaining stdout of the child process, one entry per line;
once it is exhausted, `readline` returns the empty byte string and
`p.poll()` is no longer `None`. The result's `Bool` records whether
`p.kill()` ran (the `while`/`else` branch, taken on normal loop exit).
Fuel is spent one unit per loop iteration; `none` means the loop has not
returned within `fuel` iterations. -/
def rtlLoop (nreq : Nat) : Nat → List String → Nat → List JVal → Option (List JVal × Bool)
  | 0, _, _, _ => none
  | fuel + 1, stream, found, result =>
    if found < nreq then
      -- output = p.stdout.readline()  (bytes; b"" at EOF)
      let output := stream.headD ""
      -- if output == '' and p.poll() is not None: break
      -- (bytes vs str: pyEq is always false here)
      if pyEq (PyVal.bytes output) (PyVal.str "") && stream.isEmpty then
        some (result, false)
      else if output.isEmpty then
        rtlLoop nreq fuel stream.tail found result
      else
        -- if output: try: d = json.loads(output); result.append(d); found += 1
        --            except ValueError: continue
        match jsonParse output with
        | some d => rtlLoop nreq fuel stream.tail (found + 1) (result ++ [d])
        | none => rtlLoop nreq fuel stream.tail found result
    else
      -- while condition false: else-branch runs p.kill(), then return result
      some (result, true)

/-- `rtl.get_rtl_values(msgtype, filterids)` (src/rtl.py lines 214-245):
spawns `rtlamr` filtered by `msgtype`/`filterids` and runs the read loop.
The child's stdout is the `stream` parameter; `msgtype` only shapes the
spawned command line. -/
def get_rtl_values (fuel : Nat) (msgtype : String) (filterids : List String)
    (stream : List String) : Option (List JVal × Bool) :=
  let _ := msgtype
  rtlLoop filterids.length fuel stream 0 []

/-- The decoded messages the read loop collects from a stdout stream: one
entry per line that is truthy (non-empty) and parses as JSON, in stream
order. -/
def parsedLines (stream : List String) : List JVal :=
  stream.filterMap (fun l => if l.isEmpty then none else jsonParse l)

/-- The dictionary built by `rtl.__get_gas_and_electric_reading`: possible
keys `"gas"` and `"electric"`, a missing field modelling an absent key. -/
structure GEResult where
  gas : Option Rat
  electric : Option Rat
deriving DecidableEq, Repr

/-- The condition of src/rtl.py line 286:
`gas_meter_id and "EndpointID" in item["Message"] and
str(item["Message"]["EndpointID"]) == str(gas_meter_id)`,
with Python short-circuit evaluation (the falsy guard prevents the
subscripting, whose `KeyError`/`TypeError` is otherwise uncaught here). -/
def geCondGas (gasId : Option String) (item : JVal) : Except PyErr Bool :=
  if optTruthy gasId = false then Except.ok false
  else do
    let msg ← pyIndex item "Message"
    let present ← jContains msg "EndpointID"
    if present = false then pure false
    else do
      let msg2 ← pyIndex item "Message"
      let idv ← pyIndex msg2 "EndpointID"
      pure (pyStr idv == gasId.getD "")

/-- The condition of src/rtl.py line 295:
`electric_meter_id and "ID" in item["Message"] and
str(item["Message"]["ID"]) == str(electric_meter_id)`. -/
def geCondElec (elecId : Option String) (item : JVal) : Except PyErr Bool :=
  if optTruthy elecId = false then Except.ok false
  else do
    let msg ← pyIndex item "Message"
    let present ← jContains msg "ID"
    if present = false then pure false
    else do
      let msg2 ← pyIndex item "Message"
      let idv ← pyIndex msg2 "ID"
      pure (pyStr idv == elecId.getD "")

/-- The body of the `try` blocks at src/rtl.py lines 287-289 / 296-298:
`raw = item["Message"]["Consumption"]; float(raw)/100.0`. -/
def geTryRead (item : JVal) : Except PyErr Rat := do
  let msg ← pyIndex item "Message"
  let raw ← pyIndex msg "Consumption"
  let f ← pyFloat raw
  pure (f / 100)

/-- One iteration of the `for item in l` loop of
`rtl.__get_gas_and_electric_reading` (src/rtl.py lines 285-303).
`KeyError`/`ValueError` inside the `try` blocks are caught (the reading is
logged and omitted); any other exception propagates. -/
def geStep (gasId elecId : Option String) (d : GEResult) (item : JVal) :
    Except PyErr GEResult := do
  let cg ← geCondGas gasId item
  if cg then
    match geTryRead item with
    | Except.ok v => pure { d with gas := some v }
    | Except.error PyErr.keyError => pure d
    | Except.error PyErr.valueError => pure d
    | Except.error e => Except.error e
  else do
    let ce ← geCondElec elecId item
    if ce then
      match geTryRead item with
      | Except.ok v => pure { d with electric := some v }
      | Except.error PyErr.keyError => pure d
      | Except.error PyErr.valueError => pure d
      | Except.error e => Except.error e
    else pure d

/-- The extraction pass of `rtl.__get_gas_and_electric_reading` over the
merged list `l = le + lg` (src/rtl.py lines 284-305). -/
def geProcessList (gasId elecId : Option String) (l : List JVal) :
    Except PyErr GEResult :=
  l.foldlM (geStep gasId elecId) { gas := none, electric := none }

/-- `rtl.__get_gas_and_electric_reading(gas_meter_id, electric_meter_id)`
(src/rtl.py lines 267-305). `scmStream`/`scmpStream` are the stdout of the
`scm` and `scm+` decoder runs. `le` is assigned only when an electric id is
configured and `lg` only when a gas id is, yet line 282 reads both
(`l = le + lg`), so with exactly one configured the merge raises
`UnboundLocalError` (modelled by `PyErr.nameError`); `le` is read first.
Outer `none` means a `get_rtl_values` call did not return within `fuel`. -/
def get_gas_and_electric_reading_impl (gasId elecId : Option String)
    (scmStream scmpStream : List String) (fuel : Nat) :
    Option (Except PyErr GEResult) :=
  let gasIds : List String := if optTruthy gasId then [gasId.getD ""] else []
  let elecIds : List String := if optTruthy elecId then [elecId.getD ""] else []
  if gasIds.length + elecIds.length = 0 then some (Except.ok { gas := none, electric := none })
  else if elecIds.length > 0 then
    match get_rtl_values fuel "scm" elecIds scmStream with
    | none => none
    | some (le, _) =>
      if gasIds.length > 0 then
        match get_rtl_values fuel "scm+" gasIds scmpStream with
        | none => none
        | some (lg, _) => some (geProcessList gasId elecId (le ++ lg))
      else some (Except.error PyErr.nameError)
  else
    match get_rtl_values fuel "scm+" gasIds scmpStream with
    | none => none
    | some (_, _) => some (Except.error PyErr.nameError)

/-- The `try` body of `rtl.get_water_reading` (src/rtl.py lines 313-315):
`raw = d[0]["Message"]["Consumption"]; hcf = float(raw)/100.0`, with `d[0]`
raising `IndexError` on an empty list. -/
def waterTryRead (d : List JVal) : Except PyErr Rat := do
  let item ← match d with
    | [] => Except.error PyErr.indexError
    | x :: _ => Except.ok x
  let msg ← pyIndex item "Message"
  let raw ← pyIndex msg "Consumption"
  let f ← pyFloat raw
  pure (f / 100)

/-- `rtl.get_water_reading()` (src/rtl.py lines 307-326): `None` when the
water meter id is unset (`== None`, not truthiness); otherwise run the
`r900bcd` decoder for that single id and extract, catching `IndexError`,
`KeyError` and `ValueError` as `None`; any other exception propagates. -/
def get_water_reading (waterId : Option String) (stream : List String)
    (fuel : Nat) : Option (Except PyErr (Option Rat)) :=
  match waterId with
  | none => some (Except.ok none)
  | some w =>
    match get_rtl_values fuel "r900bcd" [w] stream with
    | none => none
    | some (d, _) =>
      match waterTryRead d with
      | Except.ok f => some (Except.ok (some f))
      | Except.error PyErr.indexError => some (Except.ok none)
      | Except.error PyErr.keyError => some (Except.ok none)
      | Except.error PyErr.valueError => some (Except.ok none)
      | Except.error e => some (Except.error e)

/-- A tag dictionary: string keys to JSON-like values, preserving Python
dict insertion order. -/
abbrev TagMap := List (String × JVal)

/-- Models `tags[k] = v` on a Python dict: replace in place if the key
exists, append otherwise. -/
def dSet (m : TagMap) (k : String) (v : JVal) : TagMap :=
  if (m.map Prod.fst).contains k then
    m.map (fun kv => if kv.1 = k then (k, v) else kv)
  else m ++ [(k, v)]

/-- The tag value written for `meterid`: the configured id string. -/
def idTagVal : Option String → JVal
  | some s => JVal.jstr s
  | none => JVal.jnull

/-- An influxdb point as assembled by the orchestrator methods. -/
structure MetricPoint where
  measurement : String
  tags : TagMap
  time : String
  fields : List (String × Rat)

/-- `rtl.do_water_meter_reading(influxclient, timestamp, tags)`
(src/rtl.py lines 140-165). Returns the submitted batch together with the
caller's `tags` dictionary as it stands after the call: lines 152-154 write
`meterid`/`units`/`version` into that very dictionary (no copy), and the
built point shares it. -/
def do_water_meter_reading (waterId : Option String) (stream : List String)
    (fuel : Nat) (timestamp : String) (tags : TagMap) :
    Option (Except PyErr (List MetricPoint × TagMap)) :=
  match get_water_reading waterId stream fuel with
  | none => none
  | some (Except.error e) => some (Except.error e)
  | some (Except.ok none) => some (Except.ok ([], tags))
  | some (Except.ok (some reading)) =>
    let tags1 := dSet (dSet (dSet tags "meterid" (idTagVal waterId))
        "units" (JVal.jstr "hcf")) "version" (JVal.jnum 1)
    some (Except.ok
      ([{ measurement := "water", tags := tags1, time := timestamp,
          fields := [("reading", reading)] }], tags1))

/-- `rtl.do_gas_electric_meter_reading(influxclient, timestamp, tags)`
(src/rtl.py lines 167-210). Each emitted point tags a copy
(`tags.copy()`) of the caller's dictionary, which is therefore returned
unchanged. -/
def do_gas_electric_meter_reading (gasId elecId : Option String)
    (scmStream scmpStream : List String) (fuel : Nat) (timestamp : String)
    (tags : TagMap) : Option (Except PyErr (List MetricPoint × TagMap)) :=
  match get_gas_and_electric_reading_impl gasId elecId scmStream scmpStream fuel with
  | none => none
  | some (Except.error e) => some (Except.error e)
  | some (Except.ok readings) =>
    let gasPts : List MetricPoint :=
      match readings.gas with
      | some v =>
        let gas_tags := dSet (dSet (dSet tags "meterid" (idTagVal gasId))
            "units" (JVal.jstr "ccf")) "version" (JVal.jnum 1)
        [{ measurement := "gas", tags := gas_tags, time := timestamp,
           fields := [("reading", v)] }]
      | none => []
    let elecPts : List MetricPoint :=
      match readings.electric with
      | some v =>
        let etags := dSet (dSet (dSet tags "meterid" (idTagVal elecId))
            "units" (JVal.jstr "kwh")) "version" (JVal.jnum 1)
        [{ measurement := "electric", tags := etags, time := timestamp,
           fields := [("reading", v)] }]
      | none => []
    some (Except.ok (gasPts ++ elecPts, tags))

/-- The water-cadence test of the scheduler loop (src/rtl.py line 378):
`(beat * int(args.interval)) % (6 * 60) == 0`. -/
def schedFires (beat interval : Nat) : Bool :=
  (beat * interval) % (6 * 60) == 0

/-- Which reads the scheduler performs on tick `beat` (src/rtl.py
lines 376-379, with the rtl reader configured): gas/electric
unconditionally, water only when the cadence test passes. -/
def tickReads (beat interval : Nat) : Bool × Bool :=
  (true, schedFires beat interval)

/-- The ticks among `0..n-1` on which the water read fires. -/
def waterFireTicks (interval n : Nat) : List Nat :=
  (List.range n).filter (fun t => schedFires t interval)

/-- Dewpoint constant `b` (src/rtl.py line 37). -/
def b : ℝ := 17.27

/-- Dewpoint constant `c` (src/rtl.py line 38). -/
def c : ℝ := 237.7

/-- `gamma(Tc, RH)` (src/rtl.py lines 40-42), with `np.log` modelled as the
real logarithm. -/
noncomputable def gamma (Tc RH : ℝ) : ℝ :=
  Real.log (RH / 100) + (b * Tc) / (c + Tc)

/-- `dewpoint(Tc, RH)` (src/rtl.py lines 44-46). -/
noncomputable def dewpoint (Tc RH : ℝ) : ℝ :=
  (c * gamma Tc RH) / (b - gamma Tc RH)

/-- With the stdout stream exhausted and identifiers still missing, the read
loop never returns: `readline` yields the empty byte string, which the
Python 3 source compares against the str literal `''` (always `False`), so
the break at src/rtl.py line 232-233 never fires. -/
theorem rtlLoop_nil_stuck : ∀ (fuel nreq found : Nat) (acc : List JVal),
    found < nreq → rtlLoop nreq fuel [] found acc = none := by
  intro fuel
  induction fuel with
  | zero => intro nreq found acc h; rfl
  | succ f ih =>
    intro nreq found acc h
    have hemp : ("" : String).isEmpty = true := rfl
    have hstep : rtlLoop nreq (f + 1) [] found acc = rtlLoop nreq f [] found acc := by
      simp [rtlLoop, h, pyEq, hemp]
    rw [hstep]
    exact ih nreq found acc h

/-- While identifiers are still missing and enough parseable lines remain,
the read loop appends every line that parses — regardless of its content —
and returns, with the kill flag set, as soon as the count reaches the
required number. -/
theorem rtlLoop_complete : ∀ (stream : List String) (nreq fuel found : Nat) (acc : List JVal),
    found ≤ nreq → nreq - found ≤ (parsedLines stream).length → stream.length < fuel →
    rtlLoop nreq fuel stream found acc =
      some (acc ++ (parsedLines stream).take (nreq - found), true) := by
  intro stream
  induction stream with
  | nil =>
    intro nreq fuel found acc h1 h2 h3
    obtain ⟨f, rfl⟩ : ∃ f, fuel = f + 1 := ⟨fuel - 1, by omega⟩
    have hfn : ¬ found < nreq := by
      simp [parsedLines] at h2
      omega
    simp [rtlLoop, hfn, parsedLines]
  | cons l rest ih =>
    intro nreq fuel found acc h1 h2 h3
    obtain ⟨f, rfl⟩ : ∃ f, fuel = f + 1 := ⟨fuel - 1, by omega⟩
    by_cases hlt : found < nreq
    · cases hl : l.isEmpty with
      | true =>
        have hpl : parsedLines (l :: rest) = parsedLines rest := by
          simp [parsedLines, hl]
        rw [hpl] at h2
        have hrec := ih nreq f found acc h1 h2 (by simpa using h3)
        simp only [rtlLoop, if_pos hlt]
        simp [pyEq, hl, hrec, hpl]
      | false =>
        cases hp : jsonParse l with
        | none =>
          have hpl : parsedLines (l :: rest) = parsedLines rest := by
            simp [parsedLines, hl, hp]
          rw [hpl] at h2
          have hrec := ih nreq f found acc h1 h2 (by simpa using h3)
          simp only [rtlLoop, if_pos hlt]
          simp [pyEq, hl, hp, hrec, hpl]
        | some d =>
          have hpl : parsedLines (l :: rest) = d :: parsedLines rest := by
            simp [parsedLines, hl, hp]
          have h2' : nreq - (found + 1) ≤ (parsedLines rest).length := by
            rw [hpl] at h2
            simp at h2
            omega
          have hrec := ih nreq f (found + 1) (acc ++ [d]) (by omega) h2' (by simpa using h3)
          have htake : (nreq - found) = (nreq - (found + 1)) + 1 := by omega
          simp only [rtlLoop, if_pos hlt]
          simp [pyEq, hl, hp, hrec, hpl, htake, List.take_succ_cons]
    · have h0 : nreq - found = 0 := by omega
      simp [rtlLoop, hlt, h0]

/-- C1 counterexample: the claim says a parsed message is recorded only if
its identifier is in the required set. Here the required set is
`{"123"}`, the only line decodes to a message whose `Message.ID` is
`"999"`, and `get_rtl_values` nevertheless records it, counts it as found,
kills the process and returns it — as a list, not an identifier-keyed
mapping. -/
theorem c1_counterexample :
    get_rtl_values 3 "scm" ["123"] ["\x7b\"Message\":\x7b\"ID\":\"999\"\x7d\x7d"] =
      some ([JVal.jobj [("Message", JVal.jobj [("ID", JVal.jstr "999")])]], true) := rfl

/-- C1 (amended): `get_rtl_values` performs no identifier matching of its
own (filtering is delegated to the child process via `-filterid`): every
successfully parsed line is appended, in order, to the result list and
counted toward completion; once the count reaches the size of the required
identifier list the loop exits, the child process is killed (flag `true`),
and the list of decoded messages — not an identifier-keyed mapping — is
returned. -/
theorem c1_records_all_parsed (msgtype : String) (filterids : List String)
    (stream : List String)
    (h : filterids.length ≤ (parsedLines stream).length) :
    get_rtl_values (stream.length + 1) msgtype filterids stream =
      some ((parsedLines stream).take filterids.length, true) := by
  have := rtlLoop_complete stream filterids.length (stream.length + 1) 0 []
    (by omega) (by simpa using h) (by omega)
  simpa [get_rtl_values] using this

/-- C1 witness: the amended theorem evaluated on a concrete two-line
stream with a one-element required set. -/
theorem c1_witness :
    get_rtl_values 2 "scm" ["123"] ["\x7b\"Message\":\x7b\"ID\":\"999\"\x7d\x7d"] =
      some ([JVal.jobj [("Message", JVal.jobj [("ID", JVal.jstr "999")])]], true) :=
  c1_records_all_parsed "scm" ["123"] ["\x7b\"Message\":\x7b\"ID\":\"999\"\x7d\x7d"]
    (by decide)

/-- C2: with a required set of size 2 and a stream that produces one
matching line and then ends, the claimed behaviour (stop on the empty read
and return the one-entry subset) does not happen: `readline` returns the
empty `bytes`, the source compares it with the `str` literal `''` — always
`False` in Python 3 — so the loop never breaks, and for every iteration
bound the call has not returned. -/
theorem c2_eof_divergence (fuel : Nat) :
    get_rtl_values fuel "scm" ["123", "456"]
      ["\x7b\"Message\":\x7b\"ID\":\"123\",\"Consumption\":\"4500\"\x7d\x7d"] = none := by
  match fuel with
  | 0 => rfl
  | f + 1 =>
    have hstep : rtlLoop 2 (f + 1)
        ["\x7b\"Message\":\x7b\"ID\":\"123\",\"Consumption\":\"4500\"\x7d\x7d"] 0 [] =
        rtlLoop 2 f [] 1
          [JVal.jobj [("Message",
            JVal.jobj [("ID", JVal.jstr "123"), ("Consumption", JVal.jstr "4500")])]] := rfl
    show rtlLoop 2 (f + 1) _ 0 [] = none
    rw [hstep]
    exact rtlLoop_nil_stuck f 2 1 _ (by omega)

/-- C3 counterexample: at configured interval 5 (the CLI default), over 12
consecutive ticks the water read fires only on tick 0 — not on ticks 0 and
6 as the claim asserts for every interval: the test is
`(beat * interval) % 360 == 0`, so tick 6 gives `30 % 360 ≠ 0`. -/
theorem c3_counterexample : waterFireTicks 5 12 = [0] := by decide

/-- C3 (amended): gas/electric are read on every tick; the water read fires
on tick `t` iff `(t * interval) % 360 = 0` (tick-count modulo arithmetic).
This matches the claimed once-per-six-ticks cadence for some intervals but
not for every interval: at intervals 60 and 300 it fires iff `t % 6 = 0`,
so over 12 consecutive ticks exactly on ticks 0 and 6, while at the default
interval 5 only tick 0 fires in such a window (the counterexample). -/
theorem c3_cadence (t interval : Nat) :
    (tickReads t interval).1 = true ∧
    (schedFires t interval = true ↔ (t * interval) % 360 = 0) ∧
    (schedFires t 60 = true ↔ t % 6 = 0) ∧
    (schedFires t 300 = true ↔ t % 6 = 0) ∧
    waterFireTicks 60 12 = [0, 6] ∧
    waterFireTicks 300 12 = [0, 6] := by
  refine ⟨rfl, ?_, ?_, ?_, by decide, by decide⟩
  · simp [schedFires]
  · simp [schedFires]
    omega
  · simp [schedFires]
    omega

/-- C5: with only the electric identity configured (gas unset), the merge
`l = le + lg` at src/rtl.py line 282 reads the never-assigned local `lg`,
so instead of extracting the configured reading the call raises
`UnboundLocalError` — contradicting the claim that the read works when
exactly one identity is configured, without raising any error. -/
theorem c5_unbound_local (e : String) (scmStream scmpStream : List String)
    (fuel : Nat) (le : List JVal) (killed : Bool) (he : e.isEmpty = false)
    (hrun : get_rtl_values fuel "scm" [e] scmStream = some (le, killed)) :
    get_gas_and_electric_reading_impl none (some e) scmStream scmpStream fuel =
      some (Except.error PyErr.nameError) := by
  simp [get_gas_and_electric_reading_impl, optTruthy, he, hrun]

/-- C5 witness: the failing call evaluated at a concrete electric id and a
stream with one decodable line. -/
theorem c5_witness :
    get_gas_and_electric_reading_impl none (some "123") ["\x7b\x7d"] [] 3 =
      some (Except.error PyErr.nameError) :=
  c5_unbound_local "123" ["\x7b\x7d"] [] 3 [JVal.jobj []] true rfl rfl

/-- C6 counterexample: on the literal claimed line
`{"ID":"123","Consumption":"4500"}` — with the fields at top level
rather than under the `"Message"` envelope — the extractor does not return
45.0: the membership test `"ID" in item["Message"]` at src/rtl.py line 295
subscripts a key that is absent, raising an uncaught `KeyError`. -/
theorem c6_counterexample :
    geProcessList none (some "123")
      ((jsonParse "\x7b\"ID\":\"123\",\"Consumption\":\"4500\"\x7d").toList) =
      Except.error PyErr.keyError := rfl

/-- C6 (amended): when the decoder line nests the fields under the
`"Message"` envelope — `{"Message":{"ID":"123","Consumption":"4500"}}` —
and the configured electric meter identifier is `"123"` (compared as
strings), the extractor returns the electric reading 45 = 4500 / 100
(KWH). -/
theorem c6_envelope_extraction :
    geProcessList none (some "123")
      ((jsonParse "\x7b\"Message\":\x7b\"ID\":\"123\",\"Consumption\":\"4500\"\x7d\x7d").toList) =
      Except.ok { gas := none, electric := some 45 } := by
  have h1 : geProcessList none (some "123")
      ((jsonParse "\x7b\"Message\":\x7b\"ID\":\"123\",\"Consumption\":\"4500\"\x7d\x7d").toList) =
      Except.ok { gas := none, electric := some ((4500 : Rat) / 100) } := rfl
  rw [h1]
  simp only [Except.ok.injEq, GEResult.mk.injEq, Option.some.injEq]
  norm_num

/-- C8: a line that is not valid JSON is skipped and the read loop simply
continues with the rest of the stream, with the found-count and collected
results unchanged — a malformed line never terminates the loop. -/
theorem c8_skip_malformed (nreq fuel found : Nat) (stream : List String)
    (acc : List JVal) (bad : String) (hparse : jsonParse bad = none)
    (hne : bad.isEmpty = false) (hfound : found < nreq) :
    rtlLoop nreq (fuel + 1) (bad :: stream) found acc =
      rtlLoop nreq fuel stream found acc := by
  simp [rtlLoop, hfound, pyEq, hne, hparse]

/-- C8 witness: the malformed line `not json` followed by a valid matching
line; the loop skips the malformed line and still returns the valid
match. -/
theorem c8_witness :
    rtlLoop 1 3 ["not json", "\x7b\"Message\":\x7b\"ID\":\"123\"\x7d\x7d"] 0 [] =
        rtlLoop 1 2 ["\x7b\"Message\":\x7b\"ID\":\"123\"\x7d\x7d"] 0 [] ∧
      rtlLoop 1 2 ["\x7b\"Message\":\x7b\"ID\":\"123\"\x7d\x7d"] 0 [] =
        some ([JVal.jobj [("Message", JVal.jobj [("ID", JVal.jstr "123")])]], true) :=
  ⟨c8_skip_malformed 1 2 0 ["\x7b\"Message\":\x7b\"ID\":\"123\"\x7d\x7d"] []
      "not json" rfl rfl (by omega),
    rfl⟩

/-- C4: in a combined gas-and-electric pass, a meter type whose matching
message has a missing `Consumption` field (`KeyError`) or a non-numeric
consumption string (`ValueError`) is logged and omitted from the result,
while the sibling meter type's successfully extracted reading is still
returned — in both directions (gas fails / electric succeeds, and
electric fails / gas succeeds); such a parse failure never aborts the
pass. -/
theorem c4_sibling_preserved (g e : String) (ig ie ig2 ie2 : JVal) (v w : Rat) :
    (geCondGas (some g) ig = Except.ok true →
      (geTryRead ig = Except.error PyErr.keyError ∨
        geTryRead ig = Except.error PyErr.valueError) →
      geCondGas (some g) ie = Except.ok false →
      geCondElec (some e) ie = Except.ok true →
      geTryRead ie = Except.ok v →
      geProcessList (some g) (some e) [ig, ie] =
        Except.ok { gas := none, electric := some v }) ∧
    (geCondGas (some g) ig2 = Except.ok true →
      geTryRead ig2 = Except.ok w →
      geCondGas (some g) ie2 = Except.ok false →
      geCondElec (some e) ie2 = Except.ok true →
      (geTryRead ie2 = Except.error PyErr.keyError ∨
        geTryRead ie2 = Except.error PyErr.valueError) →
      geProcessList (some g) (some e) [ig2, ie2] =
        Except.ok { gas := some w, electric := none }) := by
  constructor
  · intro h1 h2 h3 h4 h5
    rcases h2 with h2 | h2 <;>
    · simp only [geProcessList, List.foldlM, geStep, h1, h2, h3, h4, h5]
      rfl
  · intro h1 h2 h3 h4 h5
    rcases h5 with h5 | h5 <;>
    · simp only [geProcessList, List.foldlM, geStep, h1, h2, h3, h4, h5]
      rfl

/-- C4 witness: gas message with non-numeric consumption `"abc"` alongside
a valid electric message; the gas key is omitted and the electric reading
4500/100 is still returned. -/
theorem c4_witness :
    geProcessList (some "100") (some "123")
      [JVal.jobj [("Message", JVal.jobj
          [("EndpointID", JVal.jstr "100"), ("Consumption", JVal.jstr "abc")])],
        JVal.jobj [("Message", JVal.jobj
          [("ID", JVal.jstr "123"), ("Consumption", JVal.jstr "4500")])]] =
      Except.ok { gas := none, electric := some ((4500 : Rat) / 100) } :=
  (c4_sibling_preserved "100" "123"
      (JVal.jobj [("Message", JVal.jobj
        [("EndpointID", JVal.jstr "100"), ("Consumption", JVal.jstr "abc")])])
      (JVal.jobj [("Message", JVal.jobj
        [("ID", JVal.jstr "123"), ("Consumption", JVal.jstr "4500")])])
      (JVal.jnull) (JVal.jnull) ((4500 : Rat) / 100) 0).1
    rfl (Or.inr rfl) rfl rfl rfl

/-- C7 counterexample: the claim says a water read never raises. But on a
decoder line that is valid JSON of non-object shape (`5`), the subscript
`d[0]["Message"]` raises `TypeError`, which the `try` at src/rtl.py
lines 313-324 does not catch (it only catches `IndexError`/`KeyError`/
`ValueError`), so the exception propagates to the caller. -/
theorem c7_counterexample :
    get_water_reading (some "1") ["5"] 3 = some (Except.error PyErr.typeError) := rfl

/-- C7 (amended): the water read is three-state for the enumerated cases
and raises no error in them: water identity unset → no-op, no point; an
extraction failure of the enumerated kinds (no decoder result →
`IndexError`, missing field → `KeyError`, non-numeric consumption string →
`ValueError`) → no point emitted and no error raised; success → exactly
one water point built, with the reading as its only field. (Uncaught
`TypeError` on other malformed shapes is the counterexample's subject.) -/
theorem c7_three_state (waterId : Option String) (stream : List String)
    (fuel : Nat) (ts : String) (tags : TagMap) :
    (waterId = none →
      do_water_meter_reading waterId stream fuel ts tags =
        some (Except.ok ([], tags))) ∧
    (∀ w d killed, waterId = some w →
      get_rtl_values fuel "r900bcd" [w] stream = some (d, killed) →
      (waterTryRead d = Except.error PyErr.indexError ∨
        waterTryRead d = Except.error PyErr.keyError ∨
        waterTryRead d = Except.error PyErr.valueError) →
      do_water_meter_reading waterId stream fuel ts tags =
        some (Except.ok ([], tags))) ∧
    (∀ w d killed v, waterId = some w →
      get_rtl_values fuel "r900bcd" [w] stream = some (d, killed) →
      waterTryRead d = Except.ok v →
      do_water_meter_reading waterId stream fuel ts tags =
        some (Except.ok
          ([{ measurement := "water",
              tags := dSet (dSet (dSet tags "meterid" (idTagVal waterId))
                "units" (JVal.jstr "hcf")) "version" (JVal.jnum 1),
              time := ts, fields := [("reading", v)] }],
            dSet (dSet (dSet tags "meterid" (idTagVal waterId))
              "units" (JVal.jstr "hcf")) "version" (JVal.jnum 1)))) := by
  refine ⟨?_, ?_, ?_⟩
  · intro h
    subst h
    simp [do_water_meter_reading, get_water_reading]
  · intro w d killed h hrun hfail
    subst h
    rcases hfail with hf | hf | hf <;>
      simp [do_water_meter_reading, get_water_reading, hrun, hf]
  · intro w d killed v h hrun hok
    subst h
    simp [do_water_meter_reading, get_water_reading, hrun, hok]

/-- C7 witness: the failure branch of the amended theorem at a concrete
stream whose one message lacks the `Consumption` field: no point, no
error. -/
theorem c7_witness :
    do_water_meter_reading (some "9") ["\x7b\"Message\":\x7b\x7d\x7d"] 3 "t0"
        [("hostname", JVal.jstr "h")] =
      some (Except.ok ([], [("hostname", JVal.jstr "h")])) :=
  (c7_three_state (some "9") ["\x7b\"Message\":\x7b\x7d\x7d"] 3 "t0"
      [("hostname", JVal.jstr "h")]).2.1
    "9" [JVal.jobj [("Message", JVal.jobj [])]] true rfl rfl
    (Or.inr (Or.inl rfl))

/-- C10: `do_water_meter_reading` writes `meterid`/`units`/`version`
directly into the caller's tag dictionary (no copy), so when a point is
emitted the caller's mapping afterwards equals its old value with the
three keys inserted; `do_gas_electric_meter_reading` instead copies the
dictionary per measurement and always leaves the caller's mapping
unchanged. -/
theorem c10_tag_mutation (tags tags2 tags3 : TagMap) (ts wid : String)
    (stream scmStream scmpStream : List String) (fuel : Nat)
    (pts pts2 : List MetricPoint) (gasId elecId : Option String) :
    (do_water_meter_reading (some wid) stream fuel ts tags =
        some (Except.ok (pts, tags2)) →
      pts ≠ [] →
      tags2 = dSet (dSet (dSet tags "meterid" (JVal.jstr wid))
        "units" (JVal.jstr "hcf")) "version" (JVal.jnum 1)) ∧
    (do_gas_electric_meter_reading gasId elecId scmStream scmpStream fuel ts tags =
        some (Except.ok (pts2, tags3)) →
      tags3 = tags) := by
  constructor
  · intro h hne
    cases hw : get_water_reading (some wid) stream fuel with
    | none => simp [do_water_meter_reading, hw] at h
    | some r =>
      cases r with
      | error e2 => simp [do_water_meter_reading, hw] at h
      | ok ro =>
        cases ro with
        | none =>
          simp [do_water_meter_reading, hw] at h
          exact absurd h.1 hne
        | some v =>
          simp [do_water_meter_reading, hw, idTagVal] at h
          exact h.2.symm
  · intro h
    cases hg : get_gas_and_electric_reading_impl gasId elecId scmStream scmpStream fuel with
    | none => simp [do_gas_electric_meter_reading, hg] at h
    | some r =>
      cases r with
      | error e2 => simp [do_gas_electric_meter_reading, hg] at h
      | ok readings =>
        simp [do_gas_electric_meter_reading, hg] at h
        exact h.2.symm

/-- C10 witness: a concrete successful water read; the caller's tag
mapping afterwards holds the three inserted keys and differs from the
mapping passed in. -/
theorem c10_witness :
    ([("hostname", JVal.jstr "h"), ("meterid", JVal.jstr "77"),
        ("units", JVal.jstr "hcf"), ("version", JVal.jnum 1)] : TagMap) =
      dSet (dSet (dSet [("hostname", JVal.jstr "h")] "meterid" (JVal.jstr "77"))
        "units" (JVal.jstr "hcf")) "version" (JVal.jnum 1) ∧
    ([("hostname", JVal.jstr "h"), ("meterid", JVal.jstr "77"),
        ("units", JVal.jstr "hcf"), ("version", JVal.jnum 1)] : TagMap) ≠
      [("hostname", JVal.jstr "h")] :=
  ⟨(c10_tag_mutation [("hostname", JVal.jstr "h")]
      [("hostname", JVal.jstr "h"), ("meterid", JVal.jstr "77"),
        ("units", JVal.jstr "hcf"), ("version", JVal.jnum 1)]
      [] "t0" "77" ["\x7b\"Message\":\x7b\"Consumption\":4500\x7d\x7d"] [] [] 3
      [{ measurement := "water",
          tags := [("hostname", JVal.jstr "h"), ("meterid", JVal.jstr "77"),
            ("units", JVal.jstr "hcf"), ("version", JVal.jnum 1)],
          time := "t0", fields := [("reading", (4500 : Rat) / 100)] }]
      [] none none).1 rfl (by simp),
    fun hcontra => absurd (congrArg List.length hcontra) (by decide)⟩

/-- C9: on the valid domain 0 < RH ≤ 100 and Tc > −237.7 the dewpoint is
at most the input temperature, with equality exactly at RH = 100. -/
theorem c9_dewpoint_le (Tc RH : ℝ) (h1 : 0 < RH) (h2 : RH ≤ 100)
    (h3 : -237.7 < Tc) :
    dewpoint Tc RH ≤ Tc ∧ (dewpoint Tc RH = Tc ↔ RH = 100) := by
  have hb : b = 17.27 := rfl
  have hcc : c = 237.7 := rfl
  have hct : 0 < c + Tc := by rw [hcc]; linarith
  have hb0 : 0 < b := by rw [hb]; norm_num
  have hc0 : 0 < c := by rw [hcc]; norm_num
  have hRHpos : 0 < RH / 100 := by positivity
  have hRHle : RH / 100 ≤ 1 := by linarith
  have hL : Real.log (RH / 100) ≤ 0 := Real.log_nonpos (le_of_lt hRHpos) hRHle
  have hgamma : gamma Tc RH = Real.log (RH / 100) + b * Tc / (c + Tc) := rfl
  have hq : b * Tc / (c + Tc) * (c + Tc) = b * Tc :=
    div_mul_cancel₀ _ (ne_of_gt hct)
  have hg0 : b * Tc / (c + Tc) < b := by
    rw [div_lt_iff₀ hct]
    nlinarith [mul_pos hb0 hc0]
  have hden : 0 < b - gamma Tc RH := by rw [hgamma]; linarith
  have hkey : gamma Tc RH * (c + Tc) ≤ b * Tc := by
    rw [hgamma]
    have h5 : 0 ≤ (-Real.log (RH / 100)) * (c + Tc) :=
      mul_nonneg (by linarith) (le_of_lt hct)
    nlinarith [hq]
  have hdd : dewpoint Tc RH = c * gamma Tc RH / (b - gamma Tc RH) := rfl
  constructor
  · rw [hdd, div_le_iff₀ hden]
    nlinarith [hkey]
  · constructor
    · intro hEq
      rw [hdd, div_eq_iff (ne_of_gt hden)] at hEq
      have hL0 : Real.log (RH / 100) * (c + Tc) = 0 := by
        rw [hgamma] at hEq
        nlinarith [hq, hEq]
      have hLz : Real.log (RH / 100) = 0 := by
        rcases mul_eq_zero.mp hL0 with hz | hz
        · exact hz
        · exact absurd hz (ne_of_gt hct)
      have hone : RH / 100 = 1 :=
        Real.eq_one_of_pos_of_log_eq_zero hRHpos hLz
      linarith [(div_eq_one_iff_eq (by norm_num : (100:ℝ) ≠ 0)).mp hone]
    · intro h100
      subst h100
      have hγ : gamma Tc 100 = b * Tc / (c + Tc) := by
        rw [hgamma]
        norm_num
      rw [hdd, hγ]
      rw [div_eq_iff (by rw [hγ] at hden; exact ne_of_gt hden)]
      field_simp
      ring

/-- C9 witness: the theorem evaluated at Tc = 20 °C, RH = 100 %. -/
theorem c9_witness :
    dewpoint 20 100 ≤ 20 ∧ (dewpoint 20 100 = 20 ↔ (100 : ℝ) = 100) :=
  c9_dewpoint_le 20 100 (by norm_num) (by norm_num) (by norm_num)

end DhtInflux
